import Mathlib

/-
Verification of the bvv-tournament-scraper change-detection pipeline.

The definitions below are a shallow embedding of src/main.py:
tournament records, the SHA-256 based identity derivation
(generate_uid_from_tournament), dictionary (Python dict) operations,
the snapshot diff, JSON snapshot persistence, the scrape filter,
the interactive enum-selection loop, the email notifier, and the
orchestrator (parse_intro) modelled as a trace of observable events.
Machine integers are Nat with explicit reduction modulo 2 ^ 32 where
the hash computation overflows.
-/

/-- Models the TournamentType dict of main.py (a dict with the five string
keys written, in insertion order, as class, date, location, playingStyle,
numberTeams; see lines 261-268). The dict key named class is rendered here
as the field tournamentClass because class is a reserved word. -/
structure TournamentType where
  tournamentClass : String
  date : String
  location : String
  playingStyle : String
  numberTeams : String
deriving DecidableEq

/- ------------------------------------------------------------------
SHA-256 (FIPS 180-4), the hash used by hashlib.sha256 in main.py line 213.
All words are Nat reduced modulo 2 ^ 32.
------------------------------------------------------------------- -/

/-- Reduction of a Nat to a 32-bit word. -/
def w32 (n : Nat) : Nat := n % 4294967296

/-- Right rotation of a 32-bit word by n bits. -/
def rotr32 (n x : Nat) : Nat := w32 ((x >>> n) ||| (x <<< (32 - n)))

/-- The Sigma0 function of SHA-256 compression. -/
def bigSigma0 (x : Nat) : Nat := rotr32 2 x ^^^ rotr32 13 x ^^^ rotr32 22 x

/-- The Sigma1 function of SHA-256 compression. -/
def bigSigma1 (x : Nat) : Nat := rotr32 6 x ^^^ rotr32 11 x ^^^ rotr32 25 x

/-- The sigma0 function of the SHA-256 message schedule. -/
def smallSigma0 (x : Nat) : Nat := rotr32 7 x ^^^ rotr32 18 x ^^^ (x >>> 3)

/-- The sigma1 function of the SHA-256 message schedule. -/
def smallSigma1 (x : Nat) : Nat := rotr32 17 x ^^^ rotr32 19 x ^^^ (x >>> 10)

/-- The Ch choice function of SHA-256 (not-x is x xor 2 ^ 32 - 1). -/
def chBits (x y z : Nat) : Nat := (x &&& y) ^^^ ((x ^^^ 4294967295) &&& z)

/-- The Maj majority function of SHA-256. -/
def majBits (x y z : Nat) : Nat := (x &&& y) ^^^ (x &&& z) ^^^ (y &&& z)

/-- The eight 32-bit working variables of the SHA-256 state. -/
structure Hash8 where
  a : Nat
  b : Nat
  c : Nat
  d : Nat
  e : Nat
  f : Nat
  g : Nat
  h : Nat

/-- The SHA-256 initial hash value H0. -/
def initialHash : Hash8 :=
  ⟨1779033703, 3144134277, 1013904242, 2773480762,
   1359893119, 2600822924, 528734635, 1541459225⟩

/-- The 64 SHA-256 round constants K. -/
def roundConstants : List Nat :=
  [1116352408, 1899447441, 3049323471, 3921009573,
   961987163, 1508970993, 2453635748, 2870763221,
   3624381080, 310598401, 607225278, 1426881987,
   1925078388, 2162078206, 2614888103, 3248222580,
   3835390401, 4022224774, 264347078, 604807628,
   770255983, 1249150122, 1555081692, 1996064986,
   2554220882, 2821834349, 2952996808, 3210313671,
   3336571891, 3584528711, 113926993, 338241895,
   666307205, 773529912, 1294757372, 1396182291,
   1695183700, 1986661051, 2177026350, 2456956037,
   2730485921, 2820302411, 3259730800, 3345764771,
   3516065817, 3600352804, 4094571909, 275423344,
   430227734, 506948616, 659060556, 883997877,
   958139571, 1322822218, 1537002063, 1747873779,
   1955562222, 2024104815, 2227730452, 2361852424,
   2428436474, 2756734187, 3204031479, 3329325298]

/-- One extension step of the SHA-256 message schedule, appending the word
sigma1 w(t-2) + w(t-7) + sigma0 w(t-15) + w(t-16). -/
def scheduleStep (w : List Nat) : List Nat :=
  w ++ [w32 (smallSigma1 (w.getD (w.length - 2) 0) + w.getD (w.length - 7) 0 +
             smallSigma0 (w.getD (w.length - 15) 0) + w.getD (w.length - 16) 0)]

/-- Extends a 16-word block to the 64-word SHA-256 message schedule. -/
def schedule (block : List Nat) : List Nat := Nat.repeat scheduleStep 48 block

/-- One SHA-256 compression round for a (round constant, schedule word) pair. -/
def compressStep (s : Hash8) (kw : Nat × Nat) : Hash8 :=
  let t1 := w32 (s.h + bigSigma1 s.e + chBits s.e s.f s.g + kw.1 + kw.2)
  let t2 := w32 (bigSigma0 s.a + majBits s.a s.b s.c)
  ⟨w32 (t1 + t2), s.a, s.b, s.c, w32 (s.d + t1), s.e, s.f, s.g⟩

/-- Processes one 16-word block: 64 compression rounds then state addition. -/
def processBlock (s : Hash8) (block : List Nat) : Hash8 :=
  let r := (roundConstants.zip (schedule block)).foldl compressStep s
  ⟨w32 (s.a + r.a), w32 (s.b + r.b), w32 (s.c + r.c), w32 (s.d + r.d),
   w32 (s.e + r.e), w32 (s.f + r.f), w32 (s.g + r.g), w32 (s.h + r.h)⟩

/-- Big-endian 8-byte encoding of the message bit length. -/
def bigEndianBytes8 (n : Nat) : List Nat :=
  [n >>> 56 % 256, n >>> 48 % 256, n >>> 40 % 256, n >>> 32 % 256,
   n >>> 24 % 256, n >>> 16 % 256, n >>> 8 % 256, n % 256]

/-- SHA-256 padding: a 0x80 byte, zero bytes to 56 mod 64, then the bit
length in big-endian. -/
def padMessage (m : List Nat) : List Nat :=
  m ++ [128] ++ List.replicate ((64 - (m.length + 9) % 64) % 64) 0 ++
    bigEndianBytes8 (m.length * 8)

/-- Groups a byte list into big-endian 32-bit words. -/
def bytesToWords : List Nat → List Nat
  | b0 :: b1 :: b2 :: b3 :: rest =>
      (((b0 * 256 + b1) * 256 + b2) * 256 + b3) :: bytesToWords rest
  | _ => []

/-- Groups a word list into 16-word blocks. -/
def chunksOf16 : List Nat → List (List Nat)
  | [] => []
  | x :: rest => (x :: rest).take 16 :: chunksOf16 ((x :: rest).drop 16)
termination_by l => l.length
decreasing_by simp [List.length_drop]; omega

/-- SHA-256 of a byte sequence, as the final eight-word state. -/
def sha256Bytes (m : List Nat) : Hash8 :=
  (chunksOf16 (bytesToWords (padMessage m))).foldl processBlock initialHash

/-- The sixteen lowercase hexadecimal digits. -/
def hexDigits : List Char := "0123456789abcdef".data

/-- The lowercase hex digit of a value below 16. -/
def hexDigit (n : Nat) : Char := hexDigits.getD n '0'

/-- Two lowercase hex digits of a byte. -/
def byteHex (b : Nat) : List Char := [hexDigit (b / 16 % 16), hexDigit (b % 16)]

/-- Eight lowercase hex digits of a 32-bit word, big-endian. -/
def wordHex (w : Nat) : List Char :=
  byteHex (w >>> 24 % 256) ++ byteHex (w >>> 16 % 256) ++
  byteHex (w >>> 8 % 256) ++ byteHex (w % 256)

/-- The lowercase hex digest of a SHA-256 state, as hexdigest() returns it. -/
def hashHex (s : Hash8) : String :=
  ⟨wordHex s.a ++ wordHex s.b ++ wordHex s.c ++ wordHex s.d ++
   wordHex s.e ++ wordHex s.f ++ wordHex s.g ++ wordHex s.h⟩

/-- hashlib.sha256(s.encode()).hexdigest() of main.py line 213: SHA-256 over
the UTF-8 encoding, rendered as a lowercase hex digest. -/
def sha256HexOfString (s : String) : String :=
  hashHex (sha256Bytes (s.toUTF8.toList.map UInt8.toNat))

/-- The string built at main.py line 212 by joining tournament.values() with
the empty separator; dict values iterate in insertion order, which for the
records built by scrape_relevant_tournaments is class, date, location,
playingStyle, numberTeams. -/
def joinValues (t : TournamentType) : String :=
  t.tournamentClass ++ t.date ++ t.location ++ t.playingStyle ++ t.numberTeams

/-- Models generate_uid_from_tournament (main.py lines 211-213). -/
def generate_uid_from_tournament (t : TournamentType) : String :=
  sha256HexOfString (joinValues t)

/-- Spec-side comparison definition, following the words of spec section 4.1:
concatenate the five record fields in the fixed order class, date, location,
playingStyle, numberOfTeams with no separator, then the lowercase hex digest
of SHA-256 over the UTF-8 encoded bytes. -/
def deriveIdSpec (t : TournamentType) : String :=
  sha256HexOfString (t.tournamentClass ++ t.date ++ t.location ++
    t.playingStyle ++ t.numberTeams)

/- ------------------------------------------------------------------
Python dict operations (string keys, insertion order, unique keys).
------------------------------------------------------------------- -/

/-- A Python dict with string keys, as an association list in insertion
order; the code only ever builds dicts with unique keys. -/
abbrev StrDict (α : Type) := List (String × α)

/-- A snapshot: dict from tournament uid to record (tournament-data.json). -/
abbrev Snapshot := StrDict TournamentType

/-- dict.keys() in insertion order. -/
def keys {α : Type} (d : StrDict α) : List String := d.map Prod.fst

/-- dict.values() in insertion order. -/
def values {α : Type} (d : StrDict α) : List α := d.map Prod.snd

/-- Python dict assignment d[k] = v: replace the value in place if the key
is present, otherwise append the pair. -/
def insertDict {α : Type} (k : String) (v : α) (d : StrDict α) : StrDict α :=
  if (keys d).contains k then d.map (fun e => if e.1 == k then (k, v) else e)
  else d ++ [(k, v)]

/-- The set difference set(scraped.keys()) - set(loaded.keys()) of main.py
line 340, as the current keys that are not previous keys. -/
def diffKeys (cur prev : Snapshot) : List String :=
  (keys cur).filter (fun k => !((keys prev).contains k))

/-- The list comprehension of main.py lines 348-349: the records of the
current snapshot whose key lies in the key difference. -/
def newTournaments (cur prev : Snapshot) : List TournamentType :=
  ((keys cur).filter (fun k => (diffKeys cur prev).contains k)).filterMap
    (fun k => List.lookup k cur)

/- Concrete fixtures. -/

/-- A record used as fixture in witnesses: the tournament B. -/
def recNew : TournamentType := ⟨"basic", "02.06.", "Augsburg", "Mixed", "8"⟩

/-- Fixture: previous snapshot holding only tournament A. -/
def snapPrev : Snapshot :=
  [("idA", ⟨"BVV Beach Masters (Kat.1)", "01.06.", "Munich", "Frauen", "12"⟩)]

/-- Fixture: current snapshot holding tournaments A and B. -/
def snapCur : Snapshot :=
  [("idA", ⟨"BVV Beach Masters (Kat.1)", "01.06.", "Munich", "Frauen", "12"⟩),
   ("idB", recNew)]

/-- Collision fixture: five fields whose separator-free concatenation is
the string abcdefghij. -/
def collA : TournamentType := ⟨"ab", "cd", "ef", "gh", "ij"⟩

/-- Collision fixture: five pairwise different fields with the same
separator-free concatenation abcdefghij. -/
def collB : TournamentType := ⟨"a", "bc", "de", "fg", "hij"⟩

/- ------------------------------------------------------------------
JSON persistence of snapshots: __dump_to_json (main.py lines 201-203,
json.dump with sort_keys=True) and __load_from_json (lines 206-208).
------------------------------------------------------------------- -/

/-- The JSON values that occur in the snapshot file: strings and objects. -/
inductive Json where
  | str (s : String)
  | obj (fields : List (String × Json))

/-- Code-point lexicographic comparison of character lists, the string
order used by json.dump sort_keys. -/
def charListLe : List Char → List Char → Bool
  | [], _ => true
  | _ :: _, [] => false
  | a :: as, b :: bs =>
      if a.toNat < b.toNat then true
      else if b.toNat < a.toNat then false
      else charListLe as bs

/-- Code-point lexicographic comparison of strings. -/
def strLe (a b : String) : Bool := charListLe a.data b.data

/-- Inserts an entry into a key-sorted association list. -/
def insertSortedByKey {α : Type} (e : String × α) :
    List (String × α) → List (String × α)
  | [] => [e]
  | f :: rest =>
      if strLe e.1 f.1 then e :: f :: rest else f :: insertSortedByKey e rest

/-- Sorts an association list by key, as json.dump sort_keys orders the
members of an object. -/
def sortByKey {α : Type} : List (String × α) → List (String × α)
  | [] => []
  | e :: rest => insertSortedByKey e (sortByKey rest)

/-- The JSON object members of one tournament record, in the insertion
order of the dict built at main.py lines 261-268. -/
def recJsonFields (r : TournamentType) : List (String × Json) :=
  [("class", Json.str r.tournamentClass), ("date", Json.str r.date),
   ("location", Json.str r.location), ("playingStyle", Json.str r.playingStyle),
   ("numberTeams", Json.str r.numberTeams)]

/-- The member encoding of one snapshot entry: the key with the sorted
JSON object of its record. -/
def encSnapshotEntry (e : String × TournamentType) : String × Json :=
  (e.1, Json.obj (sortByKey (recJsonFields e.2)))

/-- json.dump of a snapshot with sort_keys=True (main.py line 203): every
object is written with its keys sorted, recursively. -/
def dumpSnapshotJson (d : Snapshot) : Json :=
  Json.obj (sortByKey (d.map encSnapshotEntry))

/-- Recovery of one record from its JSON object member list. -/
def parseRecJson : Json → Option TournamentType
  | Json.obj fs =>
      match List.lookup "class" fs, List.lookup "date" fs,
            List.lookup "location" fs, List.lookup "playingStyle" fs,
            List.lookup "numberTeams" fs with
      | some (Json.str c), some (Json.str dt), some (Json.str loc),
        some (Json.str ps), some (Json.str nt) => some ⟨c, dt, loc, ps, nt⟩
      | _, _, _, _, _ => none
  | _ => none

/-- Recovery of the key-to-record entries of the snapshot object. -/
def parseSnapshotEntries : List (String × Json) → Option Snapshot
  | [] => some []
  | (k, j) :: rest =>
      match parseRecJson j, parseSnapshotEntries rest with
      | some r, some d => some ((k, r) :: d)
      | _, _ => none

/-- json.load of the snapshot file (main.py lines 206-208), recovered into
the key-to-record mapping. -/
def loadSnapshotJson : Json → Option Snapshot
  | Json.obj fs => parseSnapshotEntries fs
  | _ => none

/- ------------------------------------------------------------------
User config, scrape filter (scrape_relevant_tournaments lines 232-273),
the interactive selection loop, the notifier and the orchestrator.
------------------------------------------------------------------- -/

/-- Models the UserConfig dict of main.py: the keys playingStyle (selection
index to display value), classes (selection index to display value) and
email (string to string, possibly empty). -/
structure UserConfig where
  playingStyle : List (Nat × String)
  classes : List (Nat × String)
  email : List (String × String)
deriving DecidableEq

/-- config of playingStyle dict .values(), as used at line 258. -/
def styleValues (cfg : UserConfig) : List String := cfg.playingStyle.map Prod.snd

/-- config of classes dict .values(), as used at line 244. -/
def classValues (cfg : UserConfig) : List String := cfg.classes.map Prod.snd

/-- One table row of a class section: the five td cells row_data indices
0 to 4 (index 1 is the empty cell the code skips at line 265). -/
structure Row where
  td0 : String
  td1 : String
  td2 : String
  td3 : String
  td4 : String
deriving DecidableEq

/-- The fetched page as the external fetcher presents it: the h3 class name
of each ranking box together with its tbody rows. -/
abbrev Page := List (String × List Row)

/-- The class filter of lines 240-245: keep the sections whose h3 name is a
selected class value, keyed by name in a dict (a later section of the same
name overwrites an earlier one). -/
def relevantClassSections (cfg : UserConfig) (page : Page) :
    List (String × List Row) :=
  page.foldl
    (fun acc sec =>
      if (classValues cfg).contains sec.1 then insertDict sec.1 sec.2 acc
      else acc)
    []

/-- The row loop of lines 249-271 for one class section: skip rows whose
playing style (cell 3) is not a selected style value, build the five-field
record and insert it into the snapshot keyed by its uid. -/
def scrapeRows (cfg : UserConfig) (className : String) (rows : List Row)
    (acc : Snapshot) : Snapshot :=
  rows.foldl
    (fun a row =>
      if (styleValues cfg).contains row.td3 then
        insertDict
          (generate_uid_from_tournament
            ⟨className, row.td0, row.td2, row.td3, row.td4⟩)
          ⟨className, row.td0, row.td2, row.td3, row.td4⟩ a
      else a)
    acc

/-- scrape_relevant_tournaments (main.py lines 232-273) as a pure function
of the already-fetched page. -/
def scrape_relevant_tournaments (cfg : UserConfig) (page : Page) : Snapshot :=
  (relevantClassSections cfg page).foldl
    (fun acc sec => scrapeRows cfg sec.1 sec.2 acc) []

/-- The shape invariant of every record the scraper produces: its playing
style is a selected style value, its class is a selected class value, and
it is fully populated from the cells of some row. -/
def scrapedRecordOk (cfg : UserConfig) (r : TournamentType) : Prop :=
  r.playingStyle ∈ styleValues cfg ∧ r.tournamentClass ∈ classValues cfg ∧
  ∃ row : Row, r = ⟨r.tournamentClass, row.td0, row.td2, row.td3, row.td4⟩

/-- str.strip() over the character list. -/
def stripStr (s : String) : String :=
  ⟨((s.data.dropWhile Char.isWhitespace).reverse.dropWhile
      Char.isWhitespace).reverse⟩

/-- str.lower() over the character list. -/
def lowerStr (s : String) : String := ⟨s.data.map Char.toLower⟩

/-- str.isdigit() for ASCII digit strings: nonempty and all digits. -/
def isDigits (s : String) : Bool := !s.data.isEmpty && s.data.all Char.isDigit

/-- int(s) for a digit string. -/
def strToNat (s : String) : Nat :=
  s.data.foldl (fun a c => a * 10 + (c.toNat - 48)) 0

/-- set.add on the selection set, kept as a duplicate-free list. -/
def insertSelection (n : Nat) (sel : List Nat) : List Nat :=
  if sel.contains n then sel else sel ++ [n]

/-- The selection loop of __parse_enum_selection (main.py lines 75-98) over
a list of console inputs: full selection returns immediately, the input x
finishes unless the selection is still empty, a digit below num_entries is
added, anything else reprompts; none models exhausted input. The test
int(selection) < 0 of line 95 can never hold for a digit string. -/
def parseEnumSelectionLoop (numEntries : Nat) :
    List String → List Nat → Option (List Nat)
  | inputs, sel =>
    if sel.length = numEntries then some sel
    else
      match inputs with
      | [] => none
      | i :: rest =>
          let s := stripStr i
          if lowerStr (stripStr s) = "x" then
            if sel.length = 0 then parseEnumSelectionLoop numEntries rest sel
            else some sel
          else
            if isDigits s && decide (strToNat s < numEntries) then
              parseEnumSelectionLoop numEntries rest
                (insertSelection (strToNat s) sel)
            else parseEnumSelectionLoop numEntries rest sel

/-- __parse_enum_selection (main.py lines 75-98) started with the empty
selection set. -/
def parse_enum_selection (numEntries : Nat) (inputs : List String) :
    Option (List Nat) :=
  parseEnumSelectionLoop numEntries inputs []

/-- The fallible body of __send_email (main.py lines 278-296): the email
config accesses (a KeyError when the key is absent, as on an empty email
dict) followed by the SMTP session, whose outcome is the transport
parameter. -/
def emailBody (cfg : UserConfig) (transport : Except String Unit) :
    Except String Unit :=
  match List.lookup "from" cfg.email with
  | none => Except.error "KeyError: from"
  | some _ =>
      match List.lookup "to" cfg.email with
      | none => Except.error "KeyError: to"
      | some _ =>
          match List.lookup "host" cfg.email with
          | none => Except.error "KeyError: host"
          | some _ =>
              match List.lookup "password" cfg.email with
              | none => Except.error "KeyError: password"
              | some _ => transport

/-- __send_email (main.py lines 276-298): the whole body runs inside
try/except Exception, so any failure is returned as the printed warning
(some w) instead of propagating; none is a silent success. -/
def send_email (cfg : UserConfig) (tournamentData : List TournamentType)
    (transport : Except String Unit) : Option String :=
  match emailBody cfg transport with
  | Except.ok _ => none
  | Except.error e => some e

/-- The user-facing messages of parse_intro that the claims depend on. -/
inductive Msg where
  | firstRunNotice
  | firstRunOutro
  | tournamentList (ts : List TournamentType)
  | newCount (n : Nat)
  | showPrompt
  | upToDate
  | notifyWarning (w : String)
deriving DecidableEq

/-- The observable events of one run of parse_intro, in program order. -/
inductive Event where
  | loadConfig
  | saveConfig (cfg : UserConfig)
  | fetch (cfg : UserConfig)
  | loadSnapshot
  | saveSnapshot (snap : Snapshot)
  | diffComputed (ks : List String)
  | output (m : Msg)
  | notify (ts : List TournamentType)
deriving DecidableEq

/-- A fatal abort of the run: requests raise_for_status propagating out of
scrape_relevant_tournaments (line 234). -/
inductive Fatal where
  | fetchError (e : String)
deriving DecidableEq

/-- The environment of one run of parse_intro: console answers, file
existence, file contents, the page fetch outcome and the SMTP outcome. -/
structure Env where
  updateConfigAnswer : Bool
  userConfigExists : Bool
  interactiveConfig : UserConfig
  storedConfig : UserConfig
  pageResult : Except String Page
  tournamentDataExists : Bool
  storedSnapshot : Snapshot
  showAnswer : Bool
  transportResult : Except String Unit

/-- The config chosen at lines 309-316: freshly parsed when the user wants
an update or none exists yet, else loaded from user-config.json. -/
def chosenConfig (env : Env) : UserConfig :=
  if env.updateConfigAnswer || !env.userConfigExists then env.interactiveConfig
  else env.storedConfig

/-- The config events of lines 309-316: dump after interactive parsing,
else load; no validation happens on either path. -/
def configEvents (env : Env) : List Event :=
  if env.updateConfigAnswer || !env.userConfigExists then
    [Event.saveConfig (chosenConfig env)]
  else [Event.loadConfig]

/-- The first-run branch of parse_intro (lines 323-335): notice, optional
listing, snapshot dump, outro; no diff, no email. -/
def firstRunEvents (env : Env) (scraped : Snapshot) : List Event :=
  [Event.output Msg.firstRunNotice] ++
  (if env.showAnswer then [Event.output (Msg.tournamentList (values scraped))]
   else []) ++
  [Event.saveSnapshot scraped, Event.output Msg.firstRunOutro]

/-- The update branch of parse_intro (lines 337-357): load the previous
snapshot, immediately overwrite the file with the current snapshot (line
339), only then compute the key difference (line 340) and act on it; when
new keys exist the notifier is invoked unconditionally (the email-config
check of line 354 is commented out). -/
def updateEvents (env : Env) (cfg : UserConfig) (scraped : Snapshot) :
    List Event :=
  [Event.loadSnapshot, Event.saveSnapshot scraped,
   Event.diffComputed (diffKeys scraped env.storedSnapshot),
   Event.output (Msg.newCount (diffKeys scraped env.storedSnapshot).length)] ++
  (if 0 < (diffKeys scraped env.storedSnapshot).length then
     [Event.output Msg.showPrompt] ++
     (if env.showAnswer then
        [Event.output
          (Msg.tournamentList (newTournaments scraped env.storedSnapshot))]
      else []) ++
     [Event.notify (newTournaments scraped env.storedSnapshot)] ++
     (match send_email cfg (newTournaments scraped env.storedSnapshot)
        env.transportResult with
      | some w => [Event.output (Msg.notifyWarning w)]
      | none => [])
   else [Event.output Msg.upToDate])

/-- The trace of parse_intro once the page fetch succeeded. -/
def introTrace (env : Env) (page : Page) : List Event :=
  configEvents env ++ [Event.fetch (chosenConfig env)] ++
  (if !env.tournamentDataExists then
     firstRunEvents env (scrape_relevant_tournaments (chosenConfig env) page)
   else
     updateEvents env (chosenConfig env)
       (scrape_relevant_tournaments (chosenConfig env) page))

/-- parse_intro (main.py lines 301-357) as a run that either aborts on a
fetch failure or produces the trace of its observable events. -/
def parse_intro (env : Env) : Except Fatal (List Event) :=
  match env.pageResult with
  | Except.error e => Except.error (Fatal.fetchError e)
  | Except.ok page => Except.ok (introTrace env page)

/-- Tests whether an event is the snapshot save. -/
def isSaveSnapshotEv : Event → Bool
  | Event.saveSnapshot _ => true
  | _ => false

/-- Tests whether an event is the diff computation. -/
def isDiffEv : Event → Bool
  | Event.diffComputed _ => true
  | _ => false

/-- The ordering asserted by the spec for the snapshot save: the first diff
computation occurs strictly before the first snapshot save. -/
def diffBeforeSave (tr : List Event) : Bool :=
  match tr.findIdx? isDiffEv, tr.findIdx? isSaveSnapshotEv with
  | some i, some j => decide (i < j)
  | _, _ => false

/-- Fixture config: the Mixed style and the basic class selected, no email
target configured. -/
def cfgNoEmail : UserConfig := ⟨[(2, "Mixed")], [(7, "basic")], []⟩

/-- Fixture config with empty selections, as a hand-edited or corrupted
user-config.json could contain. -/
def cfgEmptySelections : UserConfig := ⟨[], [], []⟩

/-- Fixture page: one basic section holding one Mixed row. -/
def pageBasic : Page := [("basic", [⟨"02.06.", "", "Augsburg", "Mixed", "8"⟩])]

/-- Environment with an existing snapshot file and an empty page: the
update branch runs with an empty diff. -/
def envUpdateEmptyPage : Env :=
  ⟨false, true, cfgNoEmail, cfgNoEmail, Except.ok [], true, [], false,
   Except.ok ()⟩

/-- Environment with no email configured, an empty previous snapshot and a
page holding one new tournament: the notifier fires although no email
target exists. -/
def envNotifyNoEmail : Env :=
  ⟨false, true, cfgNoEmail, cfgNoEmail, Except.ok pageBasic, true, [], false,
   Except.error "smtp unavailable"⟩

/-- Environment whose stored config has empty selections: the run loads it
unvalidated and proceeds to the fetch. -/
def envEmptySelections : Env :=
  ⟨false, true, cfgEmptySelections, cfgEmptySelections, Except.ok [], true,
   [], false, Except.ok ()⟩

/-- Environment of a first run: tournament-data.json does not exist. -/
def envFirstRun : Env :=
  ⟨false, true, cfgNoEmail, cfgNoEmail, Except.ok pageBasic, false, [], true,
   Except.ok ()⟩

/-- Environment whose SMTP transport fails. -/
def envTransportFail : Env :=
  ⟨false, true, cfgNoEmail, cfgNoEmail, Except.ok pageBasic, true, [], false,
   Except.error "connection refused"⟩

/- ------------------------------------------------------------------
Theorems.
------------------------------------------------------------------- -/

theorem hexDigit_mem (n : Nat) : hexDigit n ∈ hexDigits := by
  unfold hexDigit
  by_cases hn : n < hexDigits.length
  · rw [List.getD_eq_getElem _ _ hn]
    exact List.getElem_mem hn
  · rw [List.getD_eq_default _ _ (Nat.le_of_not_lt hn)]
    decide

theorem byteHex_mem (b : Nat) (c : Char) (hc : c ∈ byteHex b) : c ∈ hexDigits := by
  simp only [byteHex, List.mem_cons, List.not_mem_nil, or_false] at hc
  rcases hc with rfl | rfl
  · exact hexDigit_mem _
  · exact hexDigit_mem _

theorem wordHex_mem (w : Nat) (c : Char) (hc : c ∈ wordHex w) : c ∈ hexDigits := by
  simp only [wordHex, List.mem_append] at hc
  rcases hc with ((h1 | h2) | h3) | h4
  · exact byteHex_mem _ _ h1
  · exact byteHex_mem _ _ h2
  · exact byteHex_mem _ _ h3
  · exact byteHex_mem _ _ h4

theorem hashHex_mem (s : Hash8) (c : Char) (hc : c ∈ (hashHex s).data) :
    c ∈ hexDigits := by
  simp only [hashHex, List.mem_append] at hc
  rcases hc with ((((((h1 | h2) | h3) | h4) | h5) | h6) | h7) | h8
  · exact wordHex_mem _ _ h1
  · exact wordHex_mem _ _ h2
  · exact wordHex_mem _ _ h3
  · exact wordHex_mem _ _ h4
  · exact wordHex_mem _ _ h5
  · exact wordHex_mem _ _ h6
  · exact wordHex_mem _ _ h7
  · exact wordHex_mem _ _ h8

theorem byteHex_length (b : Nat) : (byteHex b).length = 2 := rfl

theorem wordHex_length (w : Nat) : (wordHex w).length = 8 := by
  simp [wordHex, byteHex]

theorem hashHex_length (s : Hash8) : (hashHex s).length = 64 := by
  simp [hashHex, String.length, wordHex, byteHex]

/-- C2: generate_uid_from_tournament is the pure deterministic function that
concatenates the five record fields in the fixed order class, date, location,
playingStyle, numberTeams with no separator and returns the lowercase hex
digest (64 hex characters, 256 bits, every character a lowercase hex digit)
of SHA-256 over the UTF-8 encoding of that concatenation; in particular it
agrees with the identity deriver described by the spec and equals itself on
every record. -/
theorem generate_uid_refines_deriveId :
    ∀ t : TournamentType,
      generate_uid_from_tournament t = deriveIdSpec t ∧
      generate_uid_from_tournament t = generate_uid_from_tournament t ∧
      (generate_uid_from_tournament t).length = 64 ∧
      ∀ c ∈ (generate_uid_from_tournament t).data, c ∈ hexDigits := by
  intro t
  refine ⟨rfl, rfl, ?_, ?_⟩
  · exact hashHex_length _
  · intro c hc
    exact hashHex_mem _ _ hc

theorem contains_eq_decide_mem (l : List String) (a : String) :
    l.contains a = decide (a ∈ l) :=
  List.elem_eq_mem a l

theorem lookup_mem {α : Type} {l : List (String × α)} {k : String} {v : α}
    (h : List.lookup k l = some v) : (k, v) ∈ l := by
  induction l with
  | nil => simp at h
  | cons e rest ih =>
      obtain ⟨ek, ev⟩ := e
      rw [List.lookup_cons] at h
      cases hk : k == ek with
      | true =>
          rw [hk] at h
          simp only [Option.some.injEq] at h
          subst h
          have hke : k = ek := eq_of_beq hk
          subst hke
          exact List.mem_cons_self _ _
      | false =>
          rw [hk] at h
          exact List.mem_cons_of_mem _ (ih h)

theorem mem_lookup_eq_some {α : Type} {l : List (String × α)} {k : String}
    {v : α} (hnd : (l.map Prod.fst).Nodup) (hm : (k, v) ∈ l) :
    List.lookup k l = some v := by
  induction l with
  | nil => simp at hm
  | cons e rest ih =>
      obtain ⟨ek, ev⟩ := e
      simp only [List.map_cons, List.nodup_cons] at hnd
      rcases List.mem_cons.mp hm with heq | hmr
      · obtain ⟨hk, hv⟩ := Prod.mk.injEq .. ▸ heq
        subst hk
        subst hv
        exact List.lookup_cons_self
      · have hk : k ≠ ek := by
          intro hkk
          subst hkk
          exact hnd.1 (List.mem_map_of_mem Prod.fst hmr)
        rw [List.lookup_cons]
        have hb : (k == ek) = false := beq_eq_false_iff_ne.mpr hk
        rw [hb]
        exact ih hnd.2 hmr

theorem lookup_eq_none_iff_keys {α : Type} {l : List (String × α)} {k : String} :
    List.lookup k l = none ↔ k ∉ keys l := by
  rw [List.lookup_eq_none_iff]
  simp only [keys, List.mem_map, bne_iff_ne, ne_eq]
  constructor
  · rintro h ⟨p, hp, hpk⟩
    exact h p hp hpk.symm
  · intro h p hp hpk
    exact h ⟨p, hp, hpk.symm⟩

theorem lookup_isSome_of_mem_keys {α : Type} {l : List (String × α)}
    {k : String} (h : k ∈ keys l) : ∃ v, List.lookup k l = some v := by
  cases hl : List.lookup k l with
  | none => exact absurd h (lookup_eq_none_iff_keys.mp hl)
  | some v => exact ⟨v, rfl⟩

theorem lookup_perm {α : Type} {l1 l2 : List (String × α)} (hp : l1.Perm l2)
    (hnd : (keys l1).Nodup) (k : String) :
    List.lookup k l1 = List.lookup k l2 := by
  have hnd2 : (keys l2).Nodup := ((hp.map Prod.fst).nodup_iff).mp hnd
  cases hl : List.lookup k l1 with
  | none =>
      have h1 : k ∉ keys l1 := lookup_eq_none_iff_keys.mp hl
      have h2 : k ∉ keys l2 := fun hm => h1 ((hp.map Prod.fst).mem_iff.mpr hm)
      exact (lookup_eq_none_iff_keys.mpr h2).symm
  | some v =>
      have hm : (k, v) ∈ l2 := hp.mem_iff.mp (lookup_mem hl)
      exact (mem_lookup_eq_some hnd2 hm).symm

theorem filter_contains_filter (l : List String) (p : String → Bool) :
    l.filter (fun k => (l.filter p).contains k) = l.filter p := by
  apply List.filter_congr
  intro k hk
  rw [contains_eq_decide_mem]
  cases hp : p k with
  | true =>
      have hm : k ∈ l.filter p := List.mem_filter.mpr ⟨hk, hp⟩
      simp [hm]
  | false =>
      have hm : k ∉ l.filter p := by
        intro hmem
        have := (List.mem_filter.mp hmem).2
        rw [hp] at this
        exact Bool.false_ne_true this
      simp [hm]

theorem length_filterMap_of_isSome {α β : Type} (l : List α) (f : α → Option β)
    (h : ∀ x ∈ l, (f x).isSome) : (l.filterMap f).length = l.length := by
  induction l with
  | nil => rfl
  | cons x rest ih =>
      have hx := h x (List.mem_cons_self _ _)
      cases hfx : f x with
      | none => rw [hfx] at hx; simp at hx
      | some v =>
          rw [List.filterMap_cons, hfx]
          simp only [List.length_cons]
          rw [ih (fun y hy => h y (List.mem_cons_of_mem _ hy))]

theorem not_mem_of_diffKeys_filter {cur prev : Snapshot} {k : String}
    (h : k ∈ diffKeys cur prev) : k ∈ keys cur ∧ k ∉ keys prev := by
  obtain ⟨h1, h2⟩ := List.mem_filter.mp h
  refine ⟨h1, ?_⟩
  intro hmem
  rw [contains_eq_decide_mem] at h2
  simp [hmem] at h2

theorem mem_diffKeys {cur prev : Snapshot} {k : String} (h1 : k ∈ keys cur)
    (h2 : k ∉ keys prev) : k ∈ diffKeys cur prev := by
  refine List.mem_filter.mpr ⟨h1, ?_⟩
  rw [contains_eq_decide_mem]
  simp [h2]

theorem newTournaments_eq (cur prev : Snapshot) :
    newTournaments cur prev =
      (diffKeys cur prev).filterMap (fun k => List.lookup k cur) := by
  unfold newTournaments
  rw [show ((keys cur).filter fun k => (diffKeys cur prev).contains k) =
        diffKeys cur prev from filter_contains_filter (keys cur) _]

/-- C1: the diff of main.py lines 338-349 returns exactly the records of the
current snapshot whose ids are keys of current minus keys of previous: it
equals the lookups of the key set difference, the set difference has no
duplicate id, every returned record is stored in current under an id that is
not a previous key, every such id contributes its record, and the records
are in bijection with the (duplicate-free) ids. -/
theorem diff_returns_exactly_new_records (prev cur : Snapshot)
    (hnd : (keys cur).Nodup) :
    newTournaments cur prev =
      (diffKeys cur prev).filterMap (fun k => List.lookup k cur) ∧
    (diffKeys cur prev).Nodup ∧
    (∀ r ∈ newTournaments cur prev,
       ∃ k, k ∈ keys cur ∧ k ∉ keys prev ∧ List.lookup k cur = some r) ∧
    (∀ k, k ∈ keys cur → k ∉ keys prev →
       ∃ r, List.lookup k cur = some r ∧ r ∈ newTournaments cur prev) ∧
    (newTournaments cur prev).length = (diffKeys cur prev).length := by
  refine ⟨newTournaments_eq cur prev, hnd.filter _, ?_, ?_, ?_⟩
  · intro r hr
    rw [newTournaments_eq] at hr
    obtain ⟨k, hk, hlk⟩ := List.mem_filterMap.mp hr
    obtain ⟨h1, h2⟩ := not_mem_of_diffKeys_filter hk
    exact ⟨k, h1, h2, hlk⟩
  · intro k h1 h2
    obtain ⟨v, hv⟩ := lookup_isSome_of_mem_keys h1
    refine ⟨v, hv, ?_⟩
    rw [newTournaments_eq]
    exact List.mem_filterMap.mpr ⟨k, mem_diffKeys h1 h2, hv⟩
  · rw [newTournaments_eq]
    apply length_filterMap_of_isSome
    intro k hk
    obtain ⟨v, hv⟩ := lookup_isSome_of_mem_keys (not_mem_of_diffKeys_filter hk).1
    rw [hv]
    rfl

theorem diff_returns_exactly_new_records_witness :
    (keys snapCur).Nodup ∧
    (newTournaments snapCur snapPrev =
       (diffKeys snapCur snapPrev).filterMap (fun k => List.lookup k snapCur) ∧
     (diffKeys snapCur snapPrev).Nodup ∧
     (∀ r ∈ newTournaments snapCur snapPrev,
        ∃ k, k ∈ keys snapCur ∧ k ∉ keys snapPrev ∧
          List.lookup k snapCur = some r) ∧
     (∀ k, k ∈ keys snapCur → k ∉ keys snapPrev →
        ∃ r, List.lookup k snapCur = some r ∧
          r ∈ newTournaments snapCur snapPrev) ∧
     (newTournaments snapCur snapPrev).length =
       (diffKeys snapCur snapPrev).length) :=
  ⟨by decide, diff_returns_exactly_new_records snapPrev snapCur (by decide)⟩

/-- C10: the uid is the hash of the five field values concatenated with no
separator, so the two records collA and collB, whose five fields are
pairwise different but concatenate to the same string, receive the same uid;
inserting both into a snapshot keyed by uid (as scrape_relevant_tournaments
lines 261-271 does) leaves a single entry, the second record silently
overwriting the first. -/
theorem uid_collision_overwrites :
    generate_uid_from_tournament collA = generate_uid_from_tournament collB ∧
    collA.tournamentClass ≠ collB.tournamentClass ∧
    collA.date ≠ collB.date ∧
    collA.location ≠ collB.location ∧
    collA.playingStyle ≠ collB.playingStyle ∧
    collA.numberTeams ≠ collB.numberTeams ∧
    insertDict (generate_uid_from_tournament collB) collB
        (insertDict (generate_uid_from_tournament collA) collA
          ([] : Snapshot)) =
      [(generate_uid_from_tournament collA, collB)] := by
  have hj : joinValues collA = joinValues collB := by decide
  have h1 : generate_uid_from_tournament collA =
      generate_uid_from_tournament collB := by
    unfold generate_uid_from_tournament
    rw [hj]
  refine ⟨h1, by decide, by decide, by decide, by decide, by decide, ?_⟩
  rw [← h1]
  simp [insertDict, keys]

theorem insertSortedByKey_perm {α : Type} (e : String × α)
    (l : List (String × α)) : (insertSortedByKey e l).Perm (e :: l) := by
  induction l with
  | nil => exact List.Perm.refl _
  | cons f rest ih =>
      rw [insertSortedByKey]
      split
      · exact List.Perm.refl _
      · exact (ih.cons f).trans (List.Perm.swap e f rest)

theorem sortByKey_perm {α : Type} (l : List (String × α)) :
    (sortByKey l).Perm l := by
  induction l with
  | nil => exact List.Perm.refl _
  | cons e rest ih => exact (insertSortedByKey_perm e _).trans (ih.cons e)

theorem insertSortedByKey_map {α β : Type} (f : (String × α) → (String × β))
    (hf : ∀ e, (f e).1 = e.1) (e : String × α) (l : List (String × α)) :
    insertSortedByKey (f e) (l.map f) = (insertSortedByKey e l).map f := by
  induction l with
  | nil => rfl
  | cons g rest ih =>
      simp only [List.map_cons, insertSortedByKey]
      rw [hf e, hf g]
      split
      · simp
      · simp only [List.map_cons, ih]

theorem sortByKey_map {α β : Type} (f : (String × α) → (String × β))
    (hf : ∀ e, (f e).1 = e.1) (l : List (String × α)) :
    sortByKey (l.map f) = (sortByKey l).map f := by
  induction l with
  | nil => rfl
  | cons e rest ih =>
      simp only [List.map_cons, sortByKey]
      rw [ih]
      exact insertSortedByKey_map f hf e (sortByKey rest)

theorem parseRecJson_recJsonFields (r : TournamentType) :
    parseRecJson (Json.obj (sortByKey (recJsonFields r))) = some r := rfl

theorem parseSnapshotEntries_map (l : Snapshot) :
    parseSnapshotEntries (l.map encSnapshotEntry) = some l := by
  induction l with
  | nil => rfl
  | cons e rest ih =>
      obtain ⟨k, r⟩ := e
      simp only [List.map_cons, encSnapshotEntry, parseSnapshotEntries,
        parseRecJson_recJsonFields, ih]

/-- C6: saving a snapshot (json.dump with sorted keys, __dump_to_json lines
201-203) and loading it back (__load_from_json lines 206-208) yields a
mapping equal to the original: every key looks up to the same record. This
holds for every snapshot with unique keys, including the empty snapshot. -/
theorem snapshot_roundtrip (d : Snapshot) (hnd : (keys d).Nodup) :
    ∃ d2, loadSnapshotJson (dumpSnapshotJson d) = some d2 ∧
      ∀ k, List.lookup k d2 = List.lookup k d := by
  have hkey : ∀ e, (encSnapshotEntry e).1 = e.1 := fun e => rfl
  have hcomm : sortByKey (d.map encSnapshotEntry) =
      (sortByKey d).map encSnapshotEntry := sortByKey_map _ hkey d
  refine ⟨sortByKey d, ?_, ?_⟩
  · show parseSnapshotEntries (sortByKey (d.map encSnapshotEntry)) = _
    rw [hcomm]
    exact parseSnapshotEntries_map (sortByKey d)
  · intro k
    have hndSorted : (keys (sortByKey d)).Nodup :=
      (((sortByKey_perm d).map Prod.fst).nodup_iff).mpr hnd
    exact lookup_perm (sortByKey_perm d) hndSorted k

theorem snapshot_roundtrip_witness :
    (keys snapCur).Nodup ∧
    ∃ d2, loadSnapshotJson (dumpSnapshotJson snapCur) = some d2 ∧
      ∀ k, List.lookup k d2 = List.lookup k snapCur :=
  ⟨by decide, snapshot_roundtrip snapCur (by decide)⟩

theorem foldl_invariant {α β : Type} (P : β → Prop) (f : β → α → β)
    (l : List α) (init : β) (h0 : P init)
    (hstep : ∀ acc x, x ∈ l → P acc → P (f acc x)) : P (l.foldl f init) := by
  revert h0 hstep
  induction l generalizing init with
  | nil => intro h0 _; exact h0
  | cons x rest ih =>
      intro h0 hstep
      exact ih (f init x) (hstep init x (List.mem_cons_self _ _) h0)
        (fun acc y hy hacc => hstep acc y (List.mem_cons_of_mem _ hy) hacc)

theorem insertDict_forall {α : Type} (P : String × α → Prop) {d : StrDict α}
    {k : String} {v : α} (hd : ∀ e ∈ d, P e) (hkv : P (k, v)) :
    ∀ e ∈ insertDict k v d, P e := by
  intro e he
  unfold insertDict at he
  split at he
  · obtain ⟨e0, he0, hee⟩ := List.mem_map.mp he
    rw [← hee]
    by_cases hc : (e0.1 == k) = true
    · simp only [hc, if_true]
      exact hkv
    · simp only [hc, if_false]
      exact hd e0 he0
  · rcases List.mem_append.mp he with h1 | h2
    · exact hd e h1
    · have he2 : e = (k, v) := by simpa using h2
      rw [he2]
      exact hkv

theorem relevantClassSections_classes (cfg : UserConfig) (page : Page) :
    ∀ sec ∈ relevantClassSections cfg page, sec.1 ∈ classValues cfg := by
  unfold relevantClassSections
  apply foldl_invariant
    (fun acc : List (String × List Row) => ∀ sec ∈ acc, sec.1 ∈ classValues cfg)
  · intro sec h
    simp at h
  · intro acc x _ hacc
    split
    · rename_i hx
      apply insertDict_forall (fun e => e.1 ∈ classValues cfg) hacc
      rw [contains_eq_decide_mem] at hx
      exact of_decide_eq_true hx
    · exact hacc

theorem scrapeRows_ok (cfg : UserConfig) (className : String)
    (hclass : className ∈ classValues cfg) (rows : List Row) (acc : Snapshot)
    (hacc : ∀ e ∈ acc, scrapedRecordOk cfg e.2) :
    ∀ e ∈ scrapeRows cfg className rows acc, scrapedRecordOk cfg e.2 := by
  unfold scrapeRows
  apply foldl_invariant
    (fun a : Snapshot => ∀ e ∈ a, scrapedRecordOk cfg e.2) _ rows acc hacc
  intro a row _ ha
  split
  · rename_i hstyle
    apply insertDict_forall (fun e => scrapedRecordOk cfg e.2) ha
    refine ⟨?_, hclass, row, rfl⟩
    rw [contains_eq_decide_mem] at hstyle
    exact of_decide_eq_true hstyle
  · exact ha

theorem scrape_entries_ok (cfg : UserConfig) (page : Page) :
    ∀ e ∈ scrape_relevant_tournaments cfg page, scrapedRecordOk cfg e.2 := by
  unfold scrape_relevant_tournaments
  apply foldl_invariant
    (fun acc : Snapshot => ∀ e ∈ acc, scrapedRecordOk cfg e.2)
  · intro e h
    simp at h
  · intro acc sec hsec hacc
    exact scrapeRows_ok cfg sec.1 (relevantClassSections_classes cfg page sec
      hsec) sec.2 acc hacc

/-- C8: the normalizer inside scrape_relevant_tournaments (lines 240-273)
only produces records whose playing style is one of the selected style
values and whose class is one of the selected class values (rows failing
either membership are skipped), and every produced record is fully
populated: its five fields are exactly the class name and the four row
cells date, location, playingStyle, numberTeams. -/
theorem scrape_filters_and_populates (cfg : UserConfig) (page : Page) :
    ∀ r ∈ values (scrape_relevant_tournaments cfg page),
      r.playingStyle ∈ styleValues cfg ∧
      r.tournamentClass ∈ classValues cfg ∧
      ∃ row : Row, r = ⟨r.tournamentClass, row.td0, row.td2, row.td3,
        row.td4⟩ := by
  intro r hr
  obtain ⟨e, he, hre⟩ := List.mem_map.mp hr
  rw [← hre]
  exact scrape_entries_ok cfg page e he

theorem scrape_filters_and_populates_witness :
    recNew ∈ values (scrape_relevant_tournaments cfgNoEmail pageBasic) ∧
    (recNew.playingStyle ∈ styleValues cfgNoEmail ∧
     recNew.tournamentClass ∈ classValues cfgNoEmail ∧
     ∃ row : Row, recNew = ⟨recNew.tournamentClass, row.td0, row.td2,
       row.td3, row.td4⟩) := by
  have hm : recNew ∈ values (scrape_relevant_tournaments cfgNoEmail pageBasic) := by
    simp [scrape_relevant_tournaments, relevantClassSections, scrapeRows,
      values, insertDict, keys, classValues, styleValues, cfgNoEmail,
      pageBasic, recNew]
  exact ⟨hm, scrape_filters_and_populates cfgNoEmail pageBasic recNew hm⟩

theorem parseEnumSelectionLoop_result (numEntries : Nat) :
    ∀ (inputs : List String) (sel l : List Nat),
      parseEnumSelectionLoop numEntries inputs sel = some l →
      l.length = numEntries ∨ 0 < l.length := by
  intro inputs
  induction inputs with
  | nil =>
      intro sel l h
      rw [parseEnumSelectionLoop] at h
      split at h
      · rename_i hfull
        obtain rfl : sel = l := by simpa using h
        exact Or.inl hfull
      · simp at h
  | cons i rest ih =>
      intro sel l h
      rw [parseEnumSelectionLoop] at h
      split at h
      · rename_i hfull
        obtain rfl : sel = l := by simpa using h
        exact Or.inl hfull
      · simp only at h
        split at h
        · split at h
          · exact ih sel l h
          · rename_i hne
            obtain rfl : sel = l := by simpa using h
            exact Or.inr (Nat.pos_of_ne_zero hne)
        · split at h
          · exact ih _ l h
          · exact ih sel l h

/-- C5 (amended): every selection produced by the interactive selection
loop __parse_enum_selection (lines 75-98) is non-empty whenever the enum
has at least one entry (the loop refuses to finish on the input x while
nothing is selected); configs loaded from user-config.json, in contrast,
are not validated at all, see the claim counterexample. -/
theorem parse_enum_selection_nonempty (numEntries : Nat)
    (inputs : List String) (l : List Nat) (hn : 0 < numEntries)
    (h : parse_enum_selection numEntries inputs = some l) : l ≠ [] := by
  rcases parseEnumSelectionLoop_result numEntries inputs [] l h with h1 | h1
  · intro hl
    rw [hl] at h1
    simp at h1
    omega
  · exact List.ne_nil_of_length_pos h1

theorem parse_enum_selection_nonempty_witness :
    0 < 3 ∧ parse_enum_selection 3 ["0", "x"] = some [0] ∧
    ([0] : List Nat) ≠ [] :=
  ⟨by decide, by decide,
   parse_enum_selection_nonempty 3 ["0", "x"] [0] (by decide) (by decide)⟩

/-- C5 counterexample: a config with empty playing-style and class
selections loaded from durable storage is not rejected: the run proceeds to
the network fetch with that config and no fatal configuration error is
raised before (or after) the fetch, contradicting the claim that an empty
selection surfaces as a fatal error before any fetch for loaded configs. -/
theorem empty_selection_reaches_fetch :
    styleValues cfgEmptySelections = [] ∧
    classValues cfgEmptySelections = [] ∧
    parse_intro envEmptySelections =
      Except.ok (introTrace envEmptySelections []) ∧
    Event.fetch cfgEmptySelections ∈ introTrace envEmptySelections [] := by
  refine ⟨rfl, rfl, rfl, ?_⟩
  decide

theorem introTrace_update (env : Env) (page : Page)
    (hd : env.tournamentDataExists = true) :
    introTrace env page =
      configEvents env ++ [Event.fetch (chosenConfig env)] ++
        updateEvents env (chosenConfig env)
          (scrape_relevant_tournaments (chosenConfig env) page) := by
  rw [introTrace, hd]
  rfl

theorem introTrace_firstRun (env : Env) (page : Page)
    (hf : env.tournamentDataExists = false) :
    introTrace env page =
      configEvents env ++ [Event.fetch (chosenConfig env)] ++
        firstRunEvents env
          (scrape_relevant_tournaments (chosenConfig env) page) := by
  rw [introTrace, hf]
  rfl

theorem updateEvents_pos (env : Env) (cfg : UserConfig) (scraped : Snapshot)
    (hn : 0 < (diffKeys scraped env.storedSnapshot).length) :
    updateEvents env cfg scraped =
      [Event.loadSnapshot, Event.saveSnapshot scraped,
       Event.diffComputed (diffKeys scraped env.storedSnapshot),
       Event.output (Msg.newCount (diffKeys scraped env.storedSnapshot).length),
       Event.output Msg.showPrompt] ++
      (if env.showAnswer then
         [Event.output
           (Msg.tournamentList (newTournaments scraped env.storedSnapshot))]
       else []) ++
      [Event.notify (newTournaments scraped env.storedSnapshot)] ++
      (match send_email cfg (newTournaments scraped env.storedSnapshot)
         env.transportResult with
       | some w => [Event.output (Msg.notifyWarning w)]
       | none => []) := by
  rw [updateEvents, if_pos hn]
  simp

theorem updateEvents_zero (env : Env) (cfg : UserConfig) (scraped : Snapshot)
    (hn : ¬ 0 < (diffKeys scraped env.storedSnapshot).length) :
    updateEvents env cfg scraped =
      [Event.loadSnapshot, Event.saveSnapshot scraped,
       Event.diffComputed (diffKeys scraped env.storedSnapshot),
       Event.output (Msg.newCount (diffKeys scraped env.storedSnapshot).length),
       Event.output Msg.upToDate] := by
  rw [updateEvents, if_neg hn]
  rfl

theorem configEvents_shape (env : Env) :
    ∀ ev ∈ configEvents env,
      ev = Event.loadConfig ∨ ev = Event.saveConfig (chosenConfig env) := by
  intro ev h
  unfold configEvents at h
  split at h <;> simp at h <;> simp [h]

theorem configEvents_countP_save (env : Env) :
    (configEvents env).countP isSaveSnapshotEv = 0 := by
  unfold configEvents
  split <;> rfl

theorem updateEvents_countP_save (env : Env) (cfg : UserConfig)
    (scraped : Snapshot) :
    (updateEvents env cfg scraped).countP isSaveSnapshotEv = 1 := by
  by_cases hn : 0 < (diffKeys scraped env.storedSnapshot).length
  · cases hs : env.showAnswer <;>
      cases hw : send_email cfg (newTournaments scraped env.storedSnapshot)
        env.transportResult <;>
      rw [updateEvents_pos env cfg scraped hn, hs, hw] <;> rfl
  · rw [updateEvents_zero env cfg scraped hn]
    rfl

/-- C3 counterexample: in the non-first run envUpdateEmptyPage the snapshot
save is executed exactly once, but the trace refutes the claimed ordering:
no diff computation precedes the save (main.py dumps the new snapshot at
line 339 before computing the key difference at line 340). -/
theorem save_not_after_diff :
    envUpdateEmptyPage.tournamentDataExists = true ∧
    parse_intro envUpdateEmptyPage =
      Except.ok (introTrace envUpdateEmptyPage []) ∧
    (introTrace envUpdateEmptyPage []).countP isSaveSnapshotEv = 1 ∧
    diffBeforeSave (introTrace envUpdateEmptyPage []) = false := by
  refine ⟨rfl, rfl, ?_, ?_⟩ <;> decide

/-- C3 (amended): in every run that is not a first run (and whose fetch
succeeds) the snapshot save is executed exactly once, after the previous
snapshot has been loaded but immediately before the key difference is
computed; since the diff uses the previously loaded snapshot, saving first
does not affect the diff. -/
theorem snapshot_save_once_before_diff (env : Env) (page : Page)
    (hp : env.pageResult = Except.ok page)
    (hd : env.tournamentDataExists = true) :
    ∃ tr, parse_intro env = Except.ok tr ∧
      tr.countP isSaveSnapshotEv = 1 ∧
      ∃ l1 l2,
        tr = l1 ++
          [Event.saveSnapshot
             (scrape_relevant_tournaments (chosenConfig env) page),
           Event.diffComputed
             (diffKeys (scrape_relevant_tournaments (chosenConfig env) page)
               env.storedSnapshot)] ++ l2 ∧
        Event.loadSnapshot ∈ l1 ∧
        (∀ ks, Event.diffComputed ks ∉ l1) := by
  refine ⟨introTrace env page, by simp [parse_intro, hp], ?_, ?_⟩
  · rw [introTrace_update env page hd, List.countP_append, List.countP_append,
      configEvents_countP_save, updateEvents_countP_save]
    rfl
  · rw [introTrace_update env page hd, updateEvents]
    refine ⟨configEvents env ++
      [Event.fetch (chosenConfig env), Event.loadSnapshot],
      [Event.output (Msg.newCount
        (diffKeys (scrape_relevant_tournaments (chosenConfig env) page)
          env.storedSnapshot).length)] ++
      (if 0 < (diffKeys (scrape_relevant_tournaments (chosenConfig env) page)
          env.storedSnapshot).length then
         [Event.output Msg.showPrompt] ++
         (if env.showAnswer then
            [Event.output (Msg.tournamentList
              (newTournaments
                (scrape_relevant_tournaments (chosenConfig env) page)
                env.storedSnapshot))]
          else []) ++
         [Event.notify
           (newTournaments
             (scrape_relevant_tournaments (chosenConfig env) page)
             env.storedSnapshot)] ++
         (match send_email (chosenConfig env)
            (newTournaments
              (scrape_relevant_tournaments (chosenConfig env) page)
              env.storedSnapshot) env.transportResult with
          | some w => [Event.output (Msg.notifyWarning w)]
          | none => [])
       else [Event.output Msg.upToDate]), ?_, ?_, ?_⟩
    · simp
    · simp
    · intro ks hk
      rcases List.mem_append.mp hk with h | h
      · rcases configEvents_shape env _ h with h1 | h1 <;> simp at h1
      · simp at h

theorem snapshot_save_once_before_diff_witness :
    envUpdateEmptyPage.pageResult = Except.ok ([] : Page) ∧
    envUpdateEmptyPage.tournamentDataExists = true ∧
    ∃ tr, parse_intro envUpdateEmptyPage = Except.ok tr ∧
      tr.countP isSaveSnapshotEv = 1 ∧
      ∃ l1 l2,
        tr = l1 ++
          [Event.saveSnapshot
             (scrape_relevant_tournaments (chosenConfig envUpdateEmptyPage)
               []),
           Event.diffComputed
             (diffKeys
               (scrape_relevant_tournaments (chosenConfig envUpdateEmptyPage)
                 [])
               envUpdateEmptyPage.storedSnapshot)] ++ l2 ∧
        Event.loadSnapshot ∈ l1 ∧
        (∀ ks, Event.diffComputed ks ∉ l1) :=
  ⟨rfl, rfl, snapshot_save_once_before_diff envUpdateEmptyPage [] rfl rfl⟩

theorem notify_not_mem_configEvents (env : Env) (ts : List TournamentType) :
    Event.notify ts ∉ configEvents env := by
  unfold configEvents
  split <;> simp

theorem notify_not_mem_firstRunEvents (env : Env) (scraped : Snapshot)
    (ts : List TournamentType) :
    Event.notify ts ∉ firstRunEvents env scraped := by
  cases hs : env.showAnswer <;> simp [firstRunEvents, hs]

theorem notify_mem_updateEvents {env : Env} {cfg : UserConfig}
    {scraped : Snapshot} {ts : List TournamentType}
    (h : Event.notify ts ∈ updateEvents env cfg scraped) :
    ts = newTournaments scraped env.storedSnapshot ∧
    0 < (diffKeys scraped env.storedSnapshot).length := by
  by_cases hn : 0 < (diffKeys scraped env.storedSnapshot).length
  · rw [updateEvents_pos env cfg scraped hn] at h
    refine ⟨?_, hn⟩
    revert h
    cases hs : env.showAnswer <;>
      cases hw : send_email cfg (newTournaments scraped env.storedSnapshot)
        env.transportResult <;>
      intro h <;> simp at h <;> exact h
  · rw [updateEvents_zero env cfg scraped hn] at h
    simp at h

/-- C7: on a first run (tournament-data.json absent) no key difference is
computed and nothing is notified, so the diff is trivially empty whatever
the current snapshot holds; the user sees the first-run notice, a message
different from the up-to-date (zero new tournaments) message, which never
appears in a first run. -/
theorem first_run_no_diff_no_email (env : Env) (page : Page)
    (hp : env.pageResult = Except.ok page)
    (hf : env.tournamentDataExists = false) :
    ∃ tr, parse_intro env = Except.ok tr ∧
      (∀ ks, Event.diffComputed ks ∉ tr) ∧
      (∀ ts, Event.notify ts ∉ tr) ∧
      Event.output Msg.firstRunNotice ∈ tr ∧
      Event.output Msg.upToDate ∉ tr ∧
      Msg.firstRunNotice ≠ Msg.upToDate := by
  refine ⟨introTrace env page, by simp [parse_intro, hp], ?_, ?_, ?_, ?_,
    by simp⟩
  · intro ks hk
    rw [introTrace_firstRun env page hf] at hk
    rcases List.mem_append.mp hk with h | h
    · rcases List.mem_append.mp h with h1 | h1
      · rcases configEvents_shape env _ h1 with h2 | h2 <;> simp at h2
      · simp at h1
    · revert h
      cases hs : env.showAnswer <;> simp [firstRunEvents, hs]
  · intro ts hk
    rw [introTrace_firstRun env page hf] at hk
    rcases List.mem_append.mp hk with h | h
    · rcases List.mem_append.mp h with h1 | h1
      · exact notify_not_mem_configEvents env ts h1
      · simp at h1
    · exact notify_not_mem_firstRunEvents env _ ts h
  · rw [introTrace_firstRun env page hf]
    simp [firstRunEvents]
  · intro hk
    rw [introTrace_firstRun env page hf] at hk
    rcases List.mem_append.mp hk with h | h
    · rcases List.mem_append.mp h with h1 | h1
      · rcases configEvents_shape env _ h1 with h2 | h2 <;> simp at h2
      · simp at h1
    · revert h
      cases hs : env.showAnswer <;> simp [firstRunEvents, hs]

theorem first_run_no_diff_no_email_witness :
    envFirstRun.pageResult = Except.ok pageBasic ∧
    envFirstRun.tournamentDataExists = false ∧
    ∃ tr, parse_intro envFirstRun = Except.ok tr ∧
      (∀ ks, Event.diffComputed ks ∉ tr) ∧
      (∀ ts, Event.notify ts ∉ tr) ∧
      Event.output Msg.firstRunNotice ∈ tr ∧
      Event.output Msg.upToDate ∉ tr ∧
      Msg.firstRunNotice ≠ Msg.upToDate :=
  ⟨rfl, rfl, first_run_no_diff_no_email envFirstRun pageBasic rfl rfl⟩

/-- C4 (code-bug evidence): with no email target configured, a non-empty
diff still invokes the notifier with the diff records — the email-config
check is only a commented-out TODO at main.py lines 353-355, so
__send_email is called unconditionally whenever new tournaments exist. The
first half of the claim (no notification on an empty diff) does hold. -/
theorem notify_invoked_without_email_target :
    (chosenConfig envNotifyNoEmail).email = [] ∧
    newTournaments
        (scrape_relevant_tournaments (chosenConfig envNotifyNoEmail)
          pageBasic)
        envNotifyNoEmail.storedSnapshot = [recNew] ∧
    ∃ tr, parse_intro envNotifyNoEmail = Except.ok tr ∧
      Event.notify [recNew] ∈ tr := by
  have hscr : scrape_relevant_tournaments (chosenConfig envNotifyNoEmail)
      pageBasic = [(generate_uid_from_tournament recNew, recNew)] := rfl
  have hst : envNotifyNoEmail.storedSnapshot = ([] : Snapshot) := rfl
  have hnt : newTournaments [(generate_uid_from_tournament recNew, recNew)]
      ([] : Snapshot) = [recNew] := by
    simp [newTournaments, diffKeys, keys, List.lookup_cons_self]
  refine ⟨rfl, ?_, introTrace envNotifyNoEmail pageBasic, rfl, ?_⟩
  · rw [hscr, hst, hnt]
  · rw [introTrace_update envNotifyNoEmail pageBasic rfl]
    have hn : 0 < (diffKeys
        (scrape_relevant_tournaments (chosenConfig envNotifyNoEmail)
          pageBasic)
        envNotifyNoEmail.storedSnapshot).length := by
      rw [hscr, hst]
      simp [diffKeys, keys]
    rw [updateEvents_pos envNotifyNoEmail (chosenConfig envNotifyNoEmail) _
      hn, hscr, hst, hnt]
    simp

/-- C9: a transport failure never escapes the notifier: __send_email
returns it as a printed warning (some w) for every config and record list,
the run still completes with an ok trace, and whenever the notifier is
invoked the snapshot save already occurred earlier in the trace, so the
run succeeds with the snapshot persisted. -/
theorem transport_failure_nonfatal (env : Env) (page : Page) (e : String)
    (hp : env.pageResult = Except.ok page)
    (ht : env.transportResult = Except.error e) :
    (∀ cfg ts, ∃ w, send_email cfg ts env.transportResult = some w) ∧
    ∃ tr, parse_intro env = Except.ok tr ∧
      ∀ ts, Event.notify ts ∈ tr →
        ∃ l1 l2 l3,
          tr = l1 ++
            [Event.saveSnapshot
              (scrape_relevant_tournaments (chosenConfig env) page)] ++
            l2 ++ [Event.notify ts] ++ l3 := by
  constructor
  · intro cfg ts
    rw [ht]
    cases h1 : List.lookup "from" cfg.email with
    | none => exact ⟨"KeyError: from", by simp [send_email, emailBody, h1]⟩
    | some v1 =>
        cases h2 : List.lookup "to" cfg.email with
        | none => exact ⟨"KeyError: to", by simp [send_email, emailBody, h1, h2]⟩
        | some v2 =>
            cases h3 : List.lookup "host" cfg.email with
            | none =>
                exact ⟨"KeyError: host",
                  by simp [send_email, emailBody, h1, h2, h3]⟩
            | some v3 =>
                cases h4 : List.lookup "password" cfg.email with
                | none =>
                    exact ⟨"KeyError: password",
                      by simp [send_email, emailBody, h1, h2, h3, h4]⟩
                | some v4 =>
                    exact ⟨e, by simp [send_email, emailBody, h1, h2, h3, h4]⟩
  · refine ⟨introTrace env page, by simp [parse_intro, hp], ?_⟩
    intro ts hts
    cases hd : env.tournamentDataExists with
    | false =>
        exfalso
        rw [introTrace_firstRun env page hd] at hts
        rcases List.mem_append.mp hts with h | h
        · rcases List.mem_append.mp h with h1 | h1
          · exact notify_not_mem_configEvents env ts h1
          · simp at h1
        · exact notify_not_mem_firstRunEvents env _ ts h
    | true =>
        rw [introTrace_update env page hd] at hts ⊢
        rcases List.mem_append.mp hts with h | h
        · rcases List.mem_append.mp h with h1 | h1
          · exact absurd h1 (notify_not_mem_configEvents env ts)
          · simp at h1
        · obtain ⟨hts2, hn⟩ := notify_mem_updateEvents h
          subst hts2
          rw [updateEvents_pos env (chosenConfig env) _ hn]
          refine ⟨configEvents env ++
            [Event.fetch (chosenConfig env), Event.loadSnapshot],
            [Event.diffComputed
              (diffKeys (scrape_relevant_tournaments (chosenConfig env) page)
                env.storedSnapshot),
             Event.output (Msg.newCount
               (diffKeys (scrape_relevant_tournaments (chosenConfig env) page)
                 env.storedSnapshot).length),
             Event.output Msg.showPrompt] ++
            (if env.showAnswer then
               [Event.output (Msg.tournamentList
                 (newTournaments
                   (scrape_relevant_tournaments (chosenConfig env) page)
                   env.storedSnapshot))]
             else []),
            (match send_email (chosenConfig env)
               (newTournaments
                 (scrape_relevant_tournaments (chosenConfig env) page)
                 env.storedSnapshot) env.transportResult with
             | some w => [Event.output (Msg.notifyWarning w)]
             | none => []), ?_⟩
          simp

theorem transport_failure_nonfatal_witness :
    envTransportFail.pageResult = Except.ok pageBasic ∧
    envTransportFail.transportResult = Except.error "connection refused" ∧
    ((∀ cfg ts, ∃ w,
        send_email cfg ts envTransportFail.transportResult = some w) ∧
     ∃ tr, parse_intro envTransportFail = Except.ok tr ∧
       ∀ ts, Event.notify ts ∈ tr →
         ∃ l1 l2 l3,
           tr = l1 ++
             [Event.saveSnapshot
               (scrape_relevant_tournaments (chosenConfig envTransportFail)
                 pageBasic)] ++
             l2 ++ [Event.notify ts] ++ l3) :=
  ⟨rfl, rfl,
   transport_failure_nonfatal envTransportFail pageBasic "connection refused"
     rfl rfl⟩

theorem generate_uid_refines_deriveId_witness :
    generate_uid_from_tournament recNew = deriveIdSpec recNew ∧
    generate_uid_from_tournament recNew = generate_uid_from_tournament recNew ∧
    (generate_uid_from_tournament recNew).length = 64 ∧
    ∀ c ∈ (generate_uid_from_tournament recNew).data, c ∈ hexDigits :=
  generate_uid_refines_deriveId recNew
